import Mathlib

/-!
# Shallow embedding of the Algorand AI Fraud Detection Service (`main.py`)

This file embeds the request path of `POST /analyze-wallet`:
the mock transaction generator `get_wallet_transactions`, the feature
extraction, the inference step, the decision policy, and the
exception-to-HTTP-status translation of the handler, and proves the
frozen claims about it.

Modelling choices, each justified against the source:

* Python's global `random` module is modelled as a state `RandState`
  carrying an infinite draw stream `stream : Nat → Nat` and a position.
  `random.seed(s)` replaces the state with a fresh stream `mt s`,
  where `mt : Nat → Nat → Nat` (the Mersenne-Twister family, one stream
  per seed) is an arbitrary parameter: every theorem below is proved for
  every `mt`, hence in particular for the real generator.
  `random.randint(a, b)` returns a value in `[a, b]` and advances the
  position; we embed it as `a + draw % (b + 1 - a)`, which has exactly
  the range behaviour of the real call for `a ≤ b`.
* `hashlib.md5(...).hexdigest()` converted to an integer is an arbitrary
  parameter `md5h : String → Nat`; the code then reduces it mod `2^32`.
* The label encoder (`state["encoder"]`) is `Option (String → Option Nat)`:
  `none` models the missing `label_encoder.pkl` (encoder is Python `None`);
  `some enc` with `enc addr = none` models `encoder.transform` raising
  `ValueError` for an address not in the historical graph.
* The GNN is loaded from an external `model.pt` that is not part of the
  repository, so its weights cannot be embedded; the two SAGE
  convolutions over the fixed 2-node graph are an arbitrary parameter
  `gnn` mapping the feature matrix (subject row and the all-zero dummy
  row) to the pre-softmax logits of node 0.  `F.log_softmax` (dim 1)
  followed by `torch.exp` composes, row-wise, to the softmax
  `exp zᵢ / (exp z₀ + exp z₁)`; we embed that composition with `exp`
  an arbitrary parameter `pexp : ℚ → ℚ`, assumed positive exactly where
  a theorem needs it.  Machine floats are modelled as exact rationals.
* FastAPI's `HTTPException` is an ordinary Python `Exception`, so the
  handler's trailing `except Exception as e: raise HTTPException(500, str(e))`
  catches the 404/503 exceptions raised earlier in the same `try` block;
  the embedding `analyze_wallet` reproduces this faithfully.
-/

set_option linter.unusedVariables false

/-- A simulated transaction record `{sender, receiver, amount}`
(`main.py`, `get_wallet_transactions`). Amounts are Python ints. -/
structure Txn where
  sender : String
  receiver : String
  amount : Nat
deriving DecidableEq, Repr

/-- State of Python's global `random` module: an infinite stream of raw
draws and the current position in it. -/
structure RandState where
  stream : Nat → Nat
  pos : Nat

/-- `random.seed(s)` for a stream family `mt`: the global state is
replaced by the stream determined by the seed, restarted at position 0. -/
def pySeed (mt : Nat → Nat → Nat) (s : Nat) : RandState :=
  ⟨mt s, 0⟩

/-- `random.randint(a, b)`: a draw in `[a, b]` (for `a ≤ b`), advancing
the generator. -/
def randint (a b : Nat) (g : RandState) : Nat × RandState :=
  (a + g.stream g.pos % (b + 1 - a), ⟨g.stream, g.pos + 1⟩)

/-- Python's substring test `sub in s`. -/
def pyContains (s : String) (sub : String) : Bool :=
  decide (sub.data <:+: s.data)

/-- The list comprehensions of `get_wallet_transactions`: build `n`
transactions, the `i`-th being `mk i a` with `a = random.randint lo hi`,
threading the generator left to right. -/
def genTxns (mk : Nat → Nat → Txn) (lo hi : Nat) (i : Nat) (n : Nat)
    (g : RandState) : List Txn × RandState :=
  match n with
  | 0 => ([], g)
  | n + 1 =>
    let r := randint lo hi g
    let rest := genTxns mk lo hi (i + 1) n r.2
    (mk i r.1 :: rest.1, rest.2)

/-- `get_wallet_transactions(wallet_address, asset_id)` (`main.py` lines
68–121).  `md5h` is the md5-hexdigest-as-integer of a string, `mt` the
seeded-generator family, `g0` the incoming global RNG state (discarded
by the `random.seed` call, exactly as in the source).  Returns the
transaction list and the outgoing global RNG state. -/
def get_wallet_transactions (md5h : String → Nat) (mt : Nat → Nat → Nat)
    (wallet_address : String) (asset_id : Int) (g0 : RandState) :
    List Txn × RandState :=
  -- random.seed(int(hashlib.md5(wallet_address.encode()).hexdigest(), 16) % (2**32))
  let g := pySeed mt (md5h wallet_address % 2 ^ 32)
  if pyContains wallet_address "MULE" then
    -- many small transfers to hub
    let c := randint 15 30 g
    genTxns (fun _ a => ⟨wallet_address, "HUB_COLLECTOR_01", a⟩) 100 500 0 c.1 c.2
  else if pyContains wallet_address "HUB" then
    -- many inbound transactions
    let c := randint 20 40 g
    genTxns (fun i a => ⟨"MULE_" ++ toString (i % 10), wallet_address, a⟩) 100 500 0 c.1 c.2
  else if pyContains wallet_address "STU" then
    -- few transactions, larger amounts
    let c := randint 1 5 g
    genTxns (fun _ a => ⟨"GOVT_SCHOLARSHIP_DEPT", wallet_address, a⟩) 1000 5000 0 c.1 c.2
  else if pyContains wallet_address "GOVT" then
    -- many outbound to students
    let c := randint 40 60 g
    genTxns (fun i a => ⟨wallet_address, "STU_" ++ toString (i % 50), a⟩) 1000 5000 0 c.1 c.2
  else
    -- unknown: few transactions
    let c := randint 1 3 g
    genTxns (fun _ a => ⟨wallet_address, "UNKNOWN_RECIPIENT", a⟩) 100 1000 0 c.1 c.2

/-- The 5 extracted features
`[In-Degree, Out-Degree, Avg_Amt, Structuring_Score, Account_Age]`
(`main.py` lines 141–149). -/
structure Features where
  in_d : Nat
  out_d : Nat
  avg_amount : ℚ
  structuring_score : ℚ
  account_age : ℚ
deriving DecidableEq, Repr

/-- Feature extraction from the transaction list (`main.py` lines 141–146). -/
def featuresOf (txns : List Txn) (wallet_address : String) : Features :=
  let in_d := (txns.filter (fun t => t.receiver == wallet_address)).length
  let out_d := (txns.filter (fun t => t.sender == wallet_address)).length
  let total_amount := ((txns.filter (fun t => t.sender == wallet_address)).map Txn.amount).sum
  let avg_amount : ℚ := if out_d > 0 then (total_amount : ℚ) / (max out_d 1 : ℚ) else 0
  let structuring_score : ℚ := if out_d > 0 ∧ avg_amount < 500 then 8/10 else 1/10
  ⟨in_d, out_d, avg_amount, structuring_score, 30⟩

/-- The wallet's feature row `[in_d, out_d, avg_amount, structuring_score, account_age]`. -/
def featureVec (f : Features) : List ℚ :=
  [f.in_d, f.out_d, f.avg_amount, f.structuring_score, f.account_age]

/-- The all-zero dummy neighbour row (`main.py` line 150). -/
def dummyFeatures : List ℚ := [0, 0, 0, 0, 0]

/-- Decision policy (`main.py` lines 162–168): decision string, and
whether the blockchain-freeze background task is added. -/
def determineAction (risk_score : ℚ) : String × Bool :=
  if risk_score > 85/100 then ("FRAUD_HIGH", true)
  else if risk_score > 60/100 then ("SUSPICIOUS_REVIEW", false)
  else ("CLEAR", false)

/-- Python's `round` on a value already scaled to an integer position:
round half to even (banker's rounding). -/
def roundHalfEven (x : ℚ) : ℤ :=
  if x - ⌊x⌋ < 1/2 then ⌊x⌋
  else if x - ⌊x⌋ > 1/2 then ⌊x⌋ + 1
  else if 2 ∣ ⌊x⌋ then ⌊x⌋ else ⌊x⌋ + 1

/-- `round(x, 4)` (`main.py` line 172). -/
def pyRound4 (x : ℚ) : ℚ :=
  (roundHalfEven (x * 10000) : ℚ) / 10000

/-- Request body schema `FraudCheck` (`main.py` lines 55–57). -/
structure FraudCheck where
  wallet_address : String
  asset_id : Int
deriving DecidableEq, Repr

/-- The `state` dict after startup, restricted to what the handler
reads: `state["encoder"]` is `None` (i.e. `none`) when
`label_encoder.pkl` was missing; otherwise a transform that yields the
graph index of a known address and raises `ValueError` (i.e. `none`)
on an unknown one. -/
structure ServerState where
  encoder : Option (String → Option Nat)

/-- Response body of a successful `POST /analyze-wallet`
(`main.py` lines 170–175). -/
structure AnalyzeResponse where
  address : String
  risk_score : ℚ
  decision : String
  monitored_asset : Int
deriving DecidableEq, Repr

/-- Exceptions crossing the handler's `try` block: FastAPI's
`HTTPException(status_code, detail)`. -/
inductive PyExc where
  | http (status : Nat) (detail : String)
deriving DecidableEq, Repr

/-- Python `str(e)` for an `HTTPException` (starlette renders it as
`"{status_code}: {detail}"`). -/
def excStr : PyExc → String
  | .http s d => toString s ++ ": " ++ d

/-- A scheduled `trigger_blockchain_freeze(wallet, asset_id)` background
task (`main.py` lines 60–66 and 166). -/
structure FreezeTask where
  wallet : String
  asset_id : Int
deriving DecidableEq, Repr

/-- Body of the handler's `try` block (`main.py` lines 127–175):
either an `HTTPException` escapes, or a response is returned together
with the background tasks scheduled on the way. -/
def analyzeBody (md5h : String → Nat) (mt : Nat → Nat → Nat)
    (pexp : ℚ → ℚ) (gnn : List ℚ → List ℚ → ℚ × ℚ)
    (st : ServerState) (data : FraudCheck) (g0 : RandState) :
    Except PyExc (AnalyzeResponse × List FreezeTask) :=
  -- A. fetch wallet activity
  let txns := (get_wallet_transactions md5h mt data.wallet_address data.asset_id g0).1
  -- B. encoder checks
  match st.encoder with
  | none => .error (.http 503 "Encoder not loaded. Model not ready.")
  | some enc =>
    match enc data.wallet_address with
    | none => .error (.http 404 "Wallet address not found in historical graph data.")
    | some _wallet_idx =>
      -- C. feature extraction
      let f := featuresOf txns data.wallet_address
      -- D. inference: model(features, edge_index) ends in F.log_softmax
      -- (dim 1); torch.exp of row 0 of the output is the softmax of the
      -- node-0 logits, and risk_score = probs[0][1].
      let z := gnn (featureVec f) dummyFeatures
      let risk_score : ℚ := pexp z.2 / (pexp z.1 + pexp z.2)
      -- E. determine action
      let act := determineAction risk_score
      let tasks : List FreezeTask :=
        if act.2 then [⟨data.wallet_address, data.asset_id⟩] else []
      .ok (⟨data.wallet_address, pyRound4 risk_score, act.1, data.asset_id⟩, tasks)

/-- The full handler (`main.py` lines 124–178): the trailing
`except Exception as e: raise HTTPException(500, str(e))` catches every
exception of the body — `HTTPException` included, since it subclasses
`Exception` — and turns it into status 500 with `str(e)` as detail. -/
def analyze_wallet (md5h : String → Nat) (mt : Nat → Nat → Nat)
    (pexp : ℚ → ℚ) (gnn : List ℚ → List ℚ → ℚ × ℚ)
    (st : ServerState) (data : FraudCheck) (g0 : RandState) :
    Except (Nat × String) (AnalyzeResponse × List FreezeTask) :=
  match analyzeBody md5h mt pexp gnn st data g0 with
  | .ok r => .ok r
  | .error e => .error (500, excStr e)

deriving instance DecidableEq for Except

/-! ### Concrete instantiations used to evaluate the embedding

The RNG-stream family, hash, exponential and GNN parameters are
universally quantified in every theorem below; these trivial instances
serve only to evaluate the handler at concrete inputs. -/

/-- A concrete hash function (everything hashes to 0). -/
def md5h0 : String → Nat := fun _ => 0

/-- A concrete stream family (every draw is 0). -/
def mt0 : Nat → Nat → Nat := fun _ _ => 0

/-- A concrete incoming RNG state. -/
def g0 : RandState := ⟨fun _ => 0, 0⟩

/-- A concrete positive exponential stand-in. -/
def pexp0 : ℚ → ℚ := fun _ => 1

/-- A concrete GNN stand-in (zero logits for node 0). -/
def gnn0 : List ℚ → List ℚ → ℚ × ℚ := fun _ _ => (0, 0)

/-- A server state whose encoder resolves every address to index 0. -/
def stAll : ServerState := ⟨some fun _ => some 0⟩

/-- A server state whose encoder resolves no address
(`encoder.transform` raises `ValueError` on everything). -/
def stUnknown : ServerState := ⟨some fun _ => none⟩

/-- A server state where `label_encoder.pkl` was missing at startup. -/
def stNoEncoder : ServerState := ⟨none⟩

/-- The transaction list generated for the address `"MULE_STU"` under
the trivial stream. -/
def txnsMS : List Txn := (get_wallet_transactions md5h0 mt0 "MULE_STU" 0 g0).1

/-! ### Helper lemmas -/

theorem randint_fst (a b : Nat) (g : RandState) :
    (randint a b g).1 = a + g.stream g.pos % (b + 1 - a) := rfl

theorem le_randint_fst (a b : Nat) (g : RandState) : a ≤ (randint a b g).1 :=
  Nat.le_add_right a _

theorem randint_fst_le (a b : Nat) (g : RandState) (h : a ≤ b) :
    (randint a b g).1 ≤ b := by
  have hm := Nat.mod_lt (g.stream g.pos) (y := b + 1 - a) (by omega)
  rw [randint_fst]
  omega

theorem genTxns_length (mk : Nat → Nat → Txn) (lo hi : Nat) (i n : Nat)
    (g : RandState) : (genTxns mk lo hi i n g).1.length = n := by
  induction n generalizing i g with
  | zero => simp [genTxns]
  | succ n ih => simp [genTxns, ih]

theorem genTxns_forall (mk : Nat → Nat → Txn) (lo hi : Nat) (hab : lo ≤ hi)
    (P : Txn → Prop) (hmk : ∀ j a, lo ≤ a → a ≤ hi → P (mk j a)) :
    ∀ i n g, ∀ t ∈ (genTxns mk lo hi i n g).1, P t := by
  intro i n
  induction n generalizing i with
  | zero => intro g t ht; simp [genTxns] at ht
  | succ n ih =>
    intro g t ht
    simp only [genTxns, List.mem_cons] at ht
    rcases ht with rfl | ht
    · exact hmk _ _ (le_randint_fst _ _ _) (randint_fst_le _ _ _ hab)
    · exact ih _ _ _ ht

theorem determineAction_freeze_iff (r : ℚ) :
    ((determineAction r).2 = true ↔ (determineAction r).1 = "FRAUD_HIGH") := by
  unfold determineAction
  split_ifs <;> simp

theorem roundHalfEven_le_ceil (x : ℚ) : roundHalfEven x ≤ ⌈x⌉ := by
  have hfl : (⌊x⌋ : ℚ) ≤ x := Int.floor_le x
  unfold roundHalfEven
  split_ifs with h1 h2 h3
  · exact Int.floor_le_ceil x
  · have : ⌊x⌋ < ⌈x⌉ := Int.lt_ceil.mpr (by linarith)
    omega
  · exact Int.floor_le_ceil x
  · have : ⌊x⌋ < ⌈x⌉ := Int.lt_ceil.mpr (by linarith)
    omega

theorem floor_le_roundHalfEven (x : ℚ) : ⌊x⌋ ≤ roundHalfEven x := by
  unfold roundHalfEven
  split_ifs <;> omega

theorem pyRound4_nonneg (x : ℚ) (h : 0 ≤ x) : 0 ≤ pyRound4 x := by
  have h1 : (0 : ℤ) ≤ ⌊x * 10000⌋ := Int.floor_nonneg.mpr (by positivity)
  have h2 : (0 : ℤ) ≤ roundHalfEven (x * 10000) :=
    le_trans h1 (floor_le_roundHalfEven _)
  unfold pyRound4
  have : (0 : ℚ) ≤ (roundHalfEven (x * 10000) : ℚ) := by exact_mod_cast h2
  positivity

theorem pyRound4_le_one (x : ℚ) (h : x ≤ 1) : pyRound4 x ≤ 1 := by
  have h1 : ⌈x * 10000⌉ ≤ 10000 :=
    Int.ceil_le.mpr (by push_cast; linarith)
  have h2 : roundHalfEven (x * 10000) ≤ 10000 :=
    le_trans (roundHalfEven_le_ceil _) h1
  have h3 : (roundHalfEven (x * 10000) : ℚ) ≤ 10000 := by exact_mod_cast h2
  unfold pyRound4
  rw [div_le_one (by norm_num)]
  exact h3

theorem analyze_wallet_ok_shape (md5h : String → Nat) (mt : Nat → Nat → Nat)
    (pexp : ℚ → ℚ) (gnn : List ℚ → List ℚ → ℚ × ℚ)
    (st : ServerState) (data : FraudCheck) (g : RandState)
    (resp : AnalyzeResponse) (tasks : List FreezeTask)
    (h : analyze_wallet md5h mt pexp gnn st data g = .ok (resp, tasks)) :
    ∃ z : ℚ × ℚ,
      resp = ⟨data.wallet_address,
              pyRound4 (pexp z.2 / (pexp z.1 + pexp z.2)),
              (determineAction (pexp z.2 / (pexp z.1 + pexp z.2))).1,
              data.asset_id⟩ ∧
      tasks = (if (determineAction (pexp z.2 / (pexp z.1 + pexp z.2))).2 then
                 [⟨data.wallet_address, data.asset_id⟩] else []) := by
  rcases st with ⟨enc⟩
  cases enc with
  | none => simp [analyze_wallet, analyzeBody] at h
  | some e =>
    cases he : e data.wallet_address with
    | none => simp [analyze_wallet, analyzeBody, he] at h
    | some idx =>
      simp only [analyze_wallet, analyzeBody, he, Except.ok.injEq,
        Prod.mk.injEq] at h
      exact ⟨_, h.1.symm, h.2.symm⟩

theorem featuresOf_in_d (txns : List Txn) (w : String) :
    (featuresOf txns w).in_d = (txns.filter (fun t => t.receiver == w)).length := rfl

theorem featuresOf_out_d (txns : List Txn) (w : String) :
    (featuresOf txns w).out_d = (txns.filter (fun t => t.sender == w)).length := rfl

theorem featuresOf_avg_amount (txns : List Txn) (w : String) :
    (featuresOf txns w).avg_amount =
      if (txns.filter (fun t => t.sender == w)).length > 0 then
        (((txns.filter (fun t => t.sender == w)).map Txn.amount).sum : ℚ) /
          (max (txns.filter (fun t => t.sender == w)).length 1 : ℚ)
      else 0 := rfl

theorem featuresOf_structuring (txns : List Txn) (w : String) :
    (featuresOf txns w).structuring_score =
      if (featuresOf txns w).out_d > 0 ∧ (featuresOf txns w).avg_amount < 500
      then 8/10 else 1/10 := rfl

/-! ### The claims -/

/-- C5: for every transaction list and address, `structuring_score` is
exactly 0.8 when `out_degree > 0` and `avg_outgoing < 500`, and exactly
0.1 in every other case — in particular at the boundary
`avg_outgoing == 500`, where the strict `<` fails. -/
theorem structuring_score_char (txns : List Txn) (w : String) :
    ((featuresOf txns w).structuring_score = 8/10 ↔
      (featuresOf txns w).out_d > 0 ∧ (featuresOf txns w).avg_amount < 500) ∧
    ((featuresOf txns w).structuring_score = 1/10 ↔
      ¬((featuresOf txns w).out_d > 0 ∧ (featuresOf txns w).avg_amount < 500)) := by
  rw [featuresOf_structuring]
  split_ifs with h <;> constructor <;> simp [h] <;> norm_num

/-- C6: the Transaction Simulator is deterministic — it reseeds the
generator from a stable hash of the address before drawing, so its
output does not depend on the incoming RNG state; in particular two
successive calls with the same address (the second starting from
whatever state the first left, or from a fresh process) produce
identical transaction lists. -/
theorem get_wallet_transactions_deterministic (md5h : String → Nat)
    (mt : Nat → Nat → Nat) (wallet_address : String) (asset_id : Int)
    (g g' : RandState) :
    (get_wallet_transactions md5h mt wallet_address asset_id g).1 =
      (get_wallet_transactions md5h mt wallet_address asset_id g').1 := rfl

/-- C8: the output of `get_wallet_transactions` depends only on the
wallet address — for any two `asset_id` values (and any two RNG states)
the returned transaction lists are identical. -/
theorem get_wallet_transactions_asset_independent (md5h : String → Nat)
    (mt : Nat → Nat → Nat) (wallet_address : String) (a₁ a₂ : Int)
    (g₁ g₂ : RandState) :
    (get_wallet_transactions md5h mt wallet_address a₁ g₁).1 =
      (get_wallet_transactions md5h mt wallet_address a₂ g₂).1 := rfl

/-- C4: the decision is a pure function of the risk score with strict
boundaries — `risk_score > 0.85` yields FRAUD_HIGH and only then is the
freeze task scheduled, `0.60 < risk_score ≤ 0.85` yields
SUSPICIOUS_REVIEW, `risk_score ≤ 0.60` yields CLEAR; in particular
`risk_score = 0.85` yields SUSPICIOUS_REVIEW and `risk_score = 0.60`
yields CLEAR. -/
theorem decision_policy_thresholds :
    (∀ r : ℚ, r > 85/100 → determineAction r = ("FRAUD_HIGH", true)) ∧
    (∀ r : ℚ, r > 60/100 → r ≤ 85/100 →
      determineAction r = ("SUSPICIOUS_REVIEW", false)) ∧
    (∀ r : ℚ, r ≤ 60/100 → determineAction r = ("CLEAR", false)) ∧
    determineAction (85/100) = ("SUSPICIOUS_REVIEW", false) ∧
    determineAction (60/100) = ("CLEAR", false) ∧
    (∀ md5h mt pexp gnn st data g resp tasks,
      analyze_wallet md5h mt pexp gnn st data g = Except.ok (resp, tasks) →
      (tasks ≠ [] ↔ resp.decision = "FRAUD_HIGH")) := by
  refine ⟨?_, ?_, ?_, ?_, ?_, ?_⟩
  · intro r h
    unfold determineAction
    rw [if_pos h]
  · intro r h1 h2
    unfold determineAction
    rw [if_neg (by linarith), if_pos h1]
  · intro r h
    unfold determineAction
    rw [if_neg (by linarith), if_neg (by linarith)]
  · unfold determineAction
    rw [if_neg (by norm_num), if_pos (by norm_num)]
  · unfold determineAction
    rw [if_neg (by norm_num), if_neg (by norm_num)]
  · intro md5h mt pexp gnn st data g resp tasks h
    obtain ⟨z, hresp, htasks⟩ := analyze_wallet_ok_shape _ _ _ _ _ _ _ _ _ h
    subst hresp htasks
    by_cases hf : (determineAction (pexp z.2 / (pexp z.1 + pexp z.2))).2 = true
    · simp [hf, (determineAction_freeze_iff _).mp hf]
    · have hne : (determineAction (pexp z.2 / (pexp z.1 + pexp z.2))).1 ≠ "FRAUD_HIGH" :=
        fun hEq => hf ((determineAction_freeze_iff _).mpr hEq)
      simp [hf, hne]

/-- Witness for C4 at the concrete scores 0.9, 0.7 and 0.5. -/
theorem decision_policy_thresholds_witness :
    determineAction (9/10) = ("FRAUD_HIGH", true) ∧
    determineAction (7/10) = ("SUSPICIOUS_REVIEW", false) ∧
    determineAction (1/2) = ("CLEAR", false) :=
  ⟨decision_policy_thresholds.1 (9/10) (by norm_num),
   decision_policy_thresholds.2.1 (7/10) (by norm_num) (by norm_num),
   decision_policy_thresholds.2.2.1 (1/2) (by norm_num)⟩

theorem genTxns_branch (mk : Nat → Nat → Txn) (lo hi : Nat) (c : Nat × RandState)
    (w : String) (hab : lo ≤ hi) (hlo : 100 ≤ lo) (hhi : hi ≤ 5000)
    (hn1 : 1 ≤ c.1) (hn60 : c.1 ≤ 60)
    (hmk : ∀ j a, (mk j a).sender = w ∨ (mk j a).receiver = w)
    (hamt : ∀ j a, (mk j a).amount = a) :
    (genTxns mk lo hi 0 c.1 c.2).1 ≠ [] ∧
    (genTxns mk lo hi 0 c.1 c.2).1.length ≤ 60 ∧
    ∀ t ∈ (genTxns mk lo hi 0 c.1 c.2).1,
      100 ≤ t.amount ∧ t.amount ≤ 5000 ∧ (t.sender = w ∨ t.receiver = w) := by
  refine ⟨List.length_pos.mp (by rw [genTxns_length]; omega),
          by rw [genTxns_length]; omega, ?_⟩
  refine genTxns_forall _ _ _ hab _ (fun j a h1 h2 => ?_) _ _ _
  exact ⟨by rw [hamt]; omega, by rw [hamt]; omega, hmk j a⟩

/-- C9: for every wallet address (every hash, stream family and RNG
state), the generated transaction list is non-empty, has at most 60
entries, every amount lies in [100, 5000], and every transaction has the
queried address as its sender or as its receiver. -/
theorem get_wallet_transactions_invariants (md5h : String → Nat)
    (mt : Nat → Nat → Nat) (w : String) (asset_id : Int) (g : RandState) :
    (get_wallet_transactions md5h mt w asset_id g).1 ≠ [] ∧
    (get_wallet_transactions md5h mt w asset_id g).1.length ≤ 60 ∧
    ∀ t ∈ (get_wallet_transactions md5h mt w asset_id g).1,
      100 ≤ t.amount ∧ t.amount ≤ 5000 ∧ (t.sender = w ∨ t.receiver = w) := by
  unfold get_wallet_transactions
  split_ifs with h1 h2 h3 h4
  · exact genTxns_branch _ _ _ _ _ (by norm_num) (by norm_num) (by norm_num)
      (le_trans (by norm_num) (le_randint_fst 15 30 _))
      (le_trans (randint_fst_le 15 30 _ (by norm_num)) (by norm_num))
      (fun j a => Or.inl rfl) (fun j a => rfl)
  · exact genTxns_branch _ _ _ _ _ (by norm_num) (by norm_num) (by norm_num)
      (le_trans (by norm_num) (le_randint_fst 20 40 _))
      (le_trans (randint_fst_le 20 40 _ (by norm_num)) (by norm_num))
      (fun j a => Or.inr rfl) (fun j a => rfl)
  · exact genTxns_branch _ _ _ _ _ (by norm_num) (by norm_num) (by norm_num)
      (le_randint_fst 1 5 _)
      (le_trans (randint_fst_le 1 5 _ (by norm_num)) (by norm_num))
      (fun j a => Or.inr rfl) (fun j a => rfl)
  · exact genTxns_branch _ _ _ _ _ (by norm_num) (by norm_num) (by norm_num)
      (le_trans (by norm_num) (le_randint_fst 40 60 _))
      (randint_fst_le 40 60 _ (by norm_num))
      (fun j a => Or.inl rfl) (fun j a => rfl)
  · exact genTxns_branch _ _ _ _ _ (by norm_num) (by norm_num) (by norm_num)
      (le_randint_fst 1 3 _)
      (le_trans (randint_fst_le 1 3 _ (by norm_num)) (by norm_num))
      (fun j a => Or.inl rfl) (fun j a => rfl)

/-- C10: for the address "UNKNOWN_RECIPIENT", which matches no pattern
and falls to the default branch whose hard-coded receiver is also
"UNKNOWN_RECIPIENT", every generated transaction has
sender = receiver = address, so `in_degree` and `out_degree` both equal
the transaction count: the in-flow/out-flow patterns are not mutually
exclusive at this edge case. -/
theorem unknown_recipient_edge_case (md5h : String → Nat)
    (mt : Nat → Nat → Nat) (asset_id : Int) (g : RandState) :
    (∀ t ∈ (get_wallet_transactions md5h mt "UNKNOWN_RECIPIENT" asset_id g).1,
        t.sender = "UNKNOWN_RECIPIENT" ∧ t.receiver = "UNKNOWN_RECIPIENT") ∧
    (featuresOf (get_wallet_transactions md5h mt "UNKNOWN_RECIPIENT" asset_id g).1
        "UNKNOWN_RECIPIENT").in_d =
      (get_wallet_transactions md5h mt "UNKNOWN_RECIPIENT" asset_id g).1.length ∧
    (featuresOf (get_wallet_transactions md5h mt "UNKNOWN_RECIPIENT" asset_id g).1
        "UNKNOWN_RECIPIENT").out_d =
      (get_wallet_transactions md5h mt "UNKNOWN_RECIPIENT" asset_id g).1.length := by
  have hb : ∀ t ∈ (get_wallet_transactions md5h mt "UNKNOWN_RECIPIENT" asset_id g).1,
      t.sender = "UNKNOWN_RECIPIENT" ∧ t.receiver = "UNKNOWN_RECIPIENT" := by
    unfold get_wallet_transactions
    rw [if_neg (by decide), if_neg (by decide), if_neg (by decide), if_neg (by decide)]
    exact genTxns_forall _ _ _ (by norm_num) _ (fun j a _ _ => ⟨rfl, rfl⟩) _ _ _
  refine ⟨hb, ?_, ?_⟩
  · rw [featuresOf_in_d,
      List.filter_eq_self.mpr (fun t ht => by rw [(hb t ht).2]; simp)]
  · rw [featuresOf_out_d,
      List.filter_eq_self.mpr (fun t ht => by rw [(hb t ht).1]; simp)]

/-- C3 counterexample: "MULE_STU" contains "STU", but the dispatch in
`get_wallet_transactions` tests "MULE" first, so the address takes the
MULE branch: under a concrete stream no sender is
"GOVT_SCHOLARSHIP_DEPT", `in_degree` is 0 rather than the transaction
count (15), `avg_outgoing` is 100 rather than 0, and the structuring
score is 0.8 rather than 0.1. -/
theorem stu_claim_counterexample :
    pyContains "MULE_STU" "STU" = true ∧
    ¬ ((featuresOf txnsMS "MULE_STU").in_d = txnsMS.length ∧
       (∀ t ∈ txnsMS, t.sender = "GOVT_SCHOLARSHIP_DEPT") ∧
       (featuresOf txnsMS "MULE_STU").avg_amount = 0 ∧
       (featuresOf txnsMS "MULE_STU").structuring_score = 1/10) := by
  decide

/-- C3 (amended): for every wallet address containing "STU" but
containing neither "MULE" nor "HUB" (which the ordered dispatch tests
first), `in_degree` equals the number of generated transactions, every
generated transaction's sender is "GOVT_SCHOLARSHIP_DEPT",
`avg_outgoing` is 0 (out_degree is 0), and `structuring_score` is 0.1. -/
theorem stu_pattern_features (md5h : String → Nat) (mt : Nat → Nat → Nat)
    (w : String) (asset_id : Int) (g : RandState)
    (hstu : pyContains w "STU" = true)
    (hmule : pyContains w "MULE" = false)
    (hhub : pyContains w "HUB" = false) :
    (featuresOf (get_wallet_transactions md5h mt w asset_id g).1 w).in_d =
      (get_wallet_transactions md5h mt w asset_id g).1.length ∧
    (∀ t ∈ (get_wallet_transactions md5h mt w asset_id g).1,
        t.sender = "GOVT_SCHOLARSHIP_DEPT") ∧
    (featuresOf (get_wallet_transactions md5h mt w asset_id g).1 w).avg_amount = 0 ∧
    (featuresOf (get_wallet_transactions md5h mt w asset_id g).1 w).structuring_score
      = 1/10 := by
  have hw : w ≠ "GOVT_SCHOLARSHIP_DEPT" := by
    intro hEq
    rw [hEq] at hstu
    exact absurd hstu (by decide)
  have hshape : ∀ t ∈ (get_wallet_transactions md5h mt w asset_id g).1,
      t.sender = "GOVT_SCHOLARSHIP_DEPT" ∧ t.receiver = w := by
    unfold get_wallet_transactions
    rw [if_neg (by simp [hmule]), if_neg (by simp [hhub]), if_pos hstu]
    exact genTxns_forall _ _ _ (by norm_num) _ (fun j a _ _ => ⟨rfl, rfl⟩) _ _ _
  have hout : (get_wallet_transactions md5h mt w asset_id g).1.filter
      (fun t => t.sender == w) = [] := by
    rw [List.filter_eq_nil_iff]
    intro t ht hbeq
    exact hw ((hshape t ht).1.symm.trans (eq_of_beq hbeq)).symm
  refine ⟨?_, fun t ht => (hshape t ht).1, ?_, ?_⟩
  · rw [featuresOf_in_d,
      List.filter_eq_self.mpr (fun t ht => by rw [(hshape t ht).2]; simp)]
  · rw [featuresOf_avg_amount, hout]
    simp
  · rw [featuresOf_structuring, featuresOf_out_d, hout]
    simp

/-- Witness for C3 (amended) at the concrete address "STU_0". -/
theorem stu_pattern_features_witness :
    (featuresOf (get_wallet_transactions md5h0 mt0 "STU_0" 7 g0).1 "STU_0").in_d =
      (get_wallet_transactions md5h0 mt0 "STU_0" 7 g0).1.length ∧
    (∀ t ∈ (get_wallet_transactions md5h0 mt0 "STU_0" 7 g0).1,
        t.sender = "GOVT_SCHOLARSHIP_DEPT") ∧
    (featuresOf (get_wallet_transactions md5h0 mt0 "STU_0" 7 g0).1 "STU_0").avg_amount
      = 0 ∧
    (featuresOf (get_wallet_transactions md5h0 mt0 "STU_0" 7 g0).1
        "STU_0").structuring_score = 1/10 :=
  stu_pattern_features md5h0 mt0 "STU_0" 7 g0 (by decide) (by decide) (by decide)

/-- C7: every successful (status 200) response carries a `risk_score` in
[0, 1] — it is the exponentiated log-softmax probability of class 1 for
node 0, a ratio of positive quantities — rounded to 4 decimal places
(an integer multiple of 1/10000), and `monitored_asset` equals the
request's `asset_id`. -/
theorem analyze_ok_risk_score (md5h : String → Nat) (mt : Nat → Nat → Nat)
    (pexp : ℚ → ℚ) (gnn : List ℚ → List ℚ → ℚ × ℚ)
    (st : ServerState) (data : FraudCheck) (g : RandState)
    (resp : AnalyzeResponse) (tasks : List FreezeTask)
    (hpos : ∀ x : ℚ, 0 < pexp x)
    (h : analyze_wallet md5h mt pexp gnn st data g = Except.ok (resp, tasks)) :
    0 ≤ resp.risk_score ∧ resp.risk_score ≤ 1 ∧
    (∃ k : ℤ, resp.risk_score = (k : ℚ) / 10000) ∧
    resp.monitored_asset = data.asset_id := by
  obtain ⟨z, hresp, -⟩ := analyze_wallet_ok_shape _ _ _ _ _ _ _ _ _ h
  subst hresp
  have h1 : 0 < pexp z.1 := hpos _
  have h2 : 0 < pexp z.2 := hpos _
  have hd : 0 < pexp z.1 + pexp z.2 := by linarith
  have hr0 : 0 ≤ pexp z.2 / (pexp z.1 + pexp z.2) := le_of_lt (div_pos h2 hd)
  have hr1 : pexp z.2 / (pexp z.1 + pexp z.2) ≤ 1 := by
    rw [div_le_one hd]; linarith
  exact ⟨pyRound4_nonneg _ hr0, pyRound4_le_one _ hr1,
    ⟨roundHalfEven (pexp z.2 / (pexp z.1 + pexp z.2) * 10000), rfl⟩, rfl⟩

/-- Witness for C7: the concrete request ("STU_0", 12345) against a
trivial encoder, exponential and GNN succeeds with risk score 1/2. -/
theorem analyze_ok_risk_score_witness :
    0 ≤ (AnalyzeResponse.mk "STU_0" (1/2) "CLEAR" 12345).risk_score ∧
    (AnalyzeResponse.mk "STU_0" (1/2) "CLEAR" 12345).risk_score ≤ 1 ∧
    (∃ k : ℤ, (AnalyzeResponse.mk "STU_0" (1/2) "CLEAR" 12345).risk_score =
      (k : ℚ) / 10000) ∧
    (AnalyzeResponse.mk "STU_0" (1/2) "CLEAR" 12345).monitored_asset =
      (FraudCheck.mk "STU_0" 12345).asset_id :=
  analyze_ok_risk_score md5h0 mt0 pexp0 gnn0 stAll ⟨"STU_0", 12345⟩ g0
    ⟨"STU_0", 1/2, "CLEAR", 12345⟩ [] (fun x => one_pos) (by
      have h1 : (get_wallet_transactions md5h0 mt0 "STU_0" 12345 g0).1 =
          [⟨"GOVT_SCHOLARSHIP_DEPT", "STU_0", 1000⟩] := by decide
      have h2 : featuresOf [(⟨"GOVT_SCHOLARSHIP_DEPT", "STU_0", 1000⟩ : Txn)]
          "STU_0" = ⟨1, 0, 0, 1/10, 30⟩ := by
        simp [featuresOf]
      simp only [analyze_wallet, analyzeBody, stAll, h1, h2, gnn0, pexp0]
      norm_num [determineAction, pyRound4, roundHalfEven])

/-- C1: the code does not return 404 for an unresolvable wallet — the
inner `HTTPException(404)` is caught by the handler's own
`except Exception` (an `HTTPException` subclasses `Exception`) and
re-raised as status 500, as this concrete evaluation shows; the claimed
404 is the documented intent (the repository's own test expects it) but
not the behaviour. -/
theorem unresolvable_wallet_returns_500 :
    analyze_wallet md5h0 mt0 pexp0 gnn0 stUnknown ⟨"UNKNOWN_WALLET_XYZ", 12345⟩ g0 =
      Except.error (500, "404: Wallet address not found in historical graph data.") := by
  decide

/-- C2: the code does not return 503 when the encoder is absent — the
inner `HTTPException(503)` is caught by the handler's own
`except Exception` and re-raised as status 500, as this concrete
evaluation shows. -/
theorem encoder_missing_returns_500 :
    analyze_wallet md5h0 mt0 pexp0 gnn0 stNoEncoder ⟨"STU_0", 12345⟩ g0 =
      Except.error (500, "503: Encoder not loaded. Model not ready.") := by
  decide

/-- Witness for C5 at a concrete one-transaction list. -/
theorem structuring_score_char_witness :
    ((featuresOf [⟨"w", "x", 100⟩] "w").structuring_score = 8/10 ↔
      (featuresOf [⟨"w", "x", 100⟩] "w").out_d > 0 ∧
        (featuresOf [⟨"w", "x", 100⟩] "w").avg_amount < 500) ∧
    ((featuresOf [⟨"w", "x", 100⟩] "w").structuring_score = 1/10 ↔
      ¬((featuresOf [⟨"w", "x", 100⟩] "w").out_d > 0 ∧
        (featuresOf [⟨"w", "x", 100⟩] "w").avg_amount < 500)) :=
  structuring_score_char [⟨"w", "x", 100⟩] "w"

/-- Witness for C6 at a concrete address and two distinct RNG states. -/
theorem get_wallet_transactions_deterministic_witness :
    (get_wallet_transactions md5h0 mt0 "MULE_7" 1 g0).1 =
      (get_wallet_transactions md5h0 mt0 "MULE_7" 1 ⟨fun _ => 3, 9⟩).1 :=
  get_wallet_transactions_deterministic md5h0 mt0 "MULE_7" 1 g0 ⟨fun _ => 3, 9⟩

/-- Witness for C8 at a concrete address and two distinct asset ids. -/
theorem get_wallet_transactions_asset_independent_witness :
    (get_wallet_transactions md5h0 mt0 "HUB_COLLECTOR_01" 1 g0).1 =
      (get_wallet_transactions md5h0 mt0 "HUB_COLLECTOR_01" 2 ⟨fun _ => 3, 9⟩).1 :=
  get_wallet_transactions_asset_independent md5h0 mt0 "HUB_COLLECTOR_01" 1 2 g0
    ⟨fun _ => 3, 9⟩

/-- Witness for C9 at a concrete address, hash and stream. -/
theorem get_wallet_transactions_invariants_witness :
    (get_wallet_transactions md5h0 mt0 "STU_0" 3 g0).1 ≠ [] ∧
    (get_wallet_transactions md5h0 mt0 "STU_0" 3 g0).1.length ≤ 60 ∧
    ∀ t ∈ (get_wallet_transactions md5h0 mt0 "STU_0" 3 g0).1,
      100 ≤ t.amount ∧ t.amount ≤ 5000 ∧
      (t.sender = "STU_0" ∨ t.receiver = "STU_0") :=
  get_wallet_transactions_invariants md5h0 mt0 "STU_0" 3 g0

/-- Witness for C10 at a concrete hash and stream. -/
theorem unknown_recipient_edge_case_witness :
    (∀ t ∈ (get_wallet_transactions md5h0 mt0 "UNKNOWN_RECIPIENT" 5 g0).1,
        t.sender = "UNKNOWN_RECIPIENT" ∧ t.receiver = "UNKNOWN_RECIPIENT") ∧
    (featuresOf (get_wallet_transactions md5h0 mt0 "UNKNOWN_RECIPIENT" 5 g0).1
        "UNKNOWN_RECIPIENT").in_d =
      (get_wallet_transactions md5h0 mt0 "UNKNOWN_RECIPIENT" 5 g0).1.length ∧
    (featuresOf (get_wallet_transactions md5h0 mt0 "UNKNOWN_RECIPIENT" 5 g0).1
        "UNKNOWN_RECIPIENT").out_d =
      (get_wallet_transactions md5h0 mt0 "UNKNOWN_RECIPIENT" 5 g0).1.length :=
  unknown_recipient_edge_case md5h0 mt0 5 g0
